import Mathlib

/-!
Verification development for the chatFlow repository: a shallow embedding of
the chat backend (Django views/models/serializers under `backend/chat/`) and
the AI inference service (`ai-service/main.py`), with theorems settling the
specification claims about them.

Conventions of the embedding:
* Database identity (uuid4 primary keys) and guest-session tokens are drawn
  from a monotone counter `uuidGen` held in the store; `uuid.uuid4()` is
  modelled as an injective fresh-token generator.
* Timestamps (`auto_now_add` / `timezone.now()`) come from a logical clock
  `clock` that ticks on every insert, so `order_by created_at` coincides with
  insertion order of the model's lists.
* `temperature` (a Python float compared only against 0.0 and 2.0) is
  modelled as `Rat`; the comparisons in range are exact.
* The outcome of the external model invocation (`self.model.generate_content`)
  is an oracle argument of type `String → ModelCall`, mapping the rendered
  prompt to either returned text or a raised exception's message.
-/

/-! ## AI service (`ai-service/main.py`) -/

/-- Wire message shape: `ChatMessage(content, role)` from `main.py`. -/
structure ChatMessage where
  content : String
  role : String
deriving DecidableEq, Repr

/-- Result shape of `AIService.generate_response`: `{content, tokens_used, model, response_time_ms}`. -/
structure AIResponse where
  content : String
  tokens_used : Nat
  model : String
  response_time_ms : Nat
deriving DecidableEq, Repr

/-- Counts maximal non-whitespace runs in a character list; the flag records
whether the previous character was inside a word. -/
def wordCountAux : Bool → List Char → Nat
  | _, [] => 0
  | inWord, c :: rest =>
      if c.isWhitespace then wordCountAux false rest
      else (if inWord then 0 else 1) + wordCountAux true rest

/-- Python `len(s.split())`: number of whitespace-separated words. -/
def wordCount (s : String) : Nat :=
  wordCountAux false s.data

/-- Python `s.strip()`: remove leading and trailing whitespace. -/
def pyStrip (s : String) : String :=
  String.mk (((s.data.dropWhile Char.isWhitespace).reverse.dropWhile
    Char.isWhitespace).reverse)

/-- The `mock_responses` list of `_generate_mock_response`; the fourth entry
interpolates the incoming message, as the Python f-string does. -/
def mock_responses (message : String) : List String :=
  ["I\x27m a mock AI assistant. To get real responses, please configure your GEMINI_API_KEY.",
   "This is a demo response from the AI service. The system is working correctly!",
   "Hello! I\x27m responding from the AI microservice. Please set up Gemini API for real AI responses.",
   "You said: \x27" ++ message ++ "\x27. I\x27m a placeholder response until Gemini API is configured."]

/-- `AIService._generate_mock_response`: selects `mock_responses[len(message) % 4]`,
estimates tokens as word count of response plus word count of message. -/
def generate_mock_response (message : String) (elapsed : Nat) : AIResponse :=
  let response_index := message.length % (mock_responses message).length
  let response_content := (mock_responses message).getD response_index ""
  { content := response_content,
    tokens_used := wordCount response_content + wordCount message,
    model := "mock-model",
    response_time_ms := elapsed }

/-- `AIService._generate_error_response`: apology text embedding the error,
constant 20 tokens, `self.model_name or 'error-model'`. -/
def generate_error_response (model_name : String) (error : String) (elapsed : Nat) : AIResponse :=
  { content := "I apologize, but I encountered an error: " ++ error ++ ". Please try again later.",
    tokens_used := 20,
    model := if model_name == "" then "error-model" else model_name,
    response_time_ms := elapsed }

/-- The slice `conversation_history[-10:]` taken in `_prepare_context`. -/
def contextWindow (conversation_history : List ChatMessage) : List ChatMessage :=
  conversation_history.drop (conversation_history.length - 10)

/-- `AIService._prepare_context`: fixed system preamble, then the last 10
history turns labeled Human/Assistant, then the current turn and an open
"Assistant:" marker. -/
def prepare_context (conversation_history : List ChatMessage) (current_message : String) : String :=
  let context_head :=
    "You are a helpful AI assistant in a chat platform. " ++
    "Provide clear, helpful, and engaging responses. " ++
    "Be concise but informative.\n\n"
  let history_part :=
    if conversation_history.isEmpty then ""
    else
      "Previous conversation:\n" ++
      String.join ((contextWindow conversation_history).map fun msg =>
        (if msg.role == "user" then "Human" else "Assistant") ++ ": " ++ msg.content ++ "\n") ++
      "\n"
  context_head ++ history_part ++ "Human: " ++ current_message ++ "\nAssistant:"

/-- Configuration state of `AIService.__init__`: `model_name` is the configured
name, `model_configured` whether `self.model` is non-None. -/
structure AIService where
  model_name : String
  model_configured : Bool
deriving DecidableEq, Repr

/-- Oracle outcome of one `self.model.generate_content(context, ...)` call:
either produced text or a raised exception carrying a message. -/
inductive ModelCall where
  | ok (text : String)
  | exn (e : String)
deriving DecidableEq, Repr

/-- `AIService.generate_response`: mock path when unconfigured; otherwise the
prompt is rendered by `_prepare_context` and handed to the model, whose raised
exceptions are caught and converted by `_generate_error_response`. Total: the
return type has no error case. -/
def generate_response (svc : AIService) (message : String)
    (conversation_history : List ChatMessage) (callModel : String → ModelCall)
    (elapsed : Nat) : AIResponse :=
  if !svc.model_configured then
    generate_mock_response message elapsed
  else
    match callModel (prepare_context conversation_history message) with
    | ModelCall.ok text =>
        { content := text,
          tokens_used := wordCount text + wordCount message,
          model := svc.model_name,
          response_time_ms := elapsed }
    | ModelCall.exn e => generate_error_response svc.model_name e elapsed

/-! ## Backend data model (`backend/chat/models.py`) -/

/-- The assistant-message `metadata` dict written by `ConversationViewSet.chat`. -/
structure MsgMeta where
  tokens_used : Nat
  model : String
  temperature : Rat
  max_tokens : Int
deriving DecidableEq, Repr

/-- `Conversation` model: nullable `user` FK and nullable `guest_session_id`. -/
structure Conversation where
  id : Nat
  user : Option Nat
  guest_session_id : Option String
  title : String
  created_at : Nat
  updated_at : Nat
deriving DecidableEq, Repr

/-- `Message` model row; `metadata` defaults to the empty dict (`none` here). -/
structure Message where
  id : Nat
  conversation : Nat
  content : String
  role : String
  metadata : Option MsgMeta
  created_at : Nat
deriving DecidableEq, Repr

/-- `APIUsage` model row. -/
structure APIUsage where
  id : Nat
  user : Option Nat
  guest_session_id : Option String
  endpoint : String
  tokens_used : Nat
  response_time_ms : Nat
  status_code : Nat
  created_at : Nat
deriving DecidableEq, Repr

/-- The persistence store: rows in insertion order (creation timestamps are
strictly increasing along each list), plus the uuid supply and logical clock. -/
structure Store where
  conversations : List Conversation
  messages : List Message
  usage : List APIUsage
  uuidGen : Nat
  clock : Nat
deriving DecidableEq, Repr

/-- Django server-side session state for one caller: the session key (if the
session has been created) and the stored `guest_session_id`, if any. -/
structure SessionState where
  session_key : Option Nat
  guest_session_id : Option String
deriving DecidableEq, Repr

/-- `str(uuid.uuid4())` modelled as an injective fresh-token generator over
the store's monotone counter. -/
def mkGuestToken (n : Nat) : String :=
  String.mk (List.replicate n 'g')

/-- `ConversationViewSet.get_or_create_guest_session`: create the session if
it has no key, then return the stored guest id, or generate, store and return
a fresh one. -/
def get_or_create_guest_session (st : Store) (sess : SessionState) :
    String × SessionState × Store :=
  let sessK := if sess.session_key.isNone
    then { sess with session_key := some st.uuidGen } else sess
  let stK := if sess.session_key.isNone
    then { st with uuidGen := st.uuidGen + 1 } else st
  match sessK.guest_session_id with
  | some session_id => (session_id, sessK, stK)
  | none =>
      let session_id := mkGuestToken stK.uuidGen
      (session_id,
       { sessK with guest_session_id := some session_id },
       { stK with uuidGen := stK.uuidGen + 1 })

/-- Identity resolution at the top of `ConversationViewSet.chat` (lines 93-100):
an authenticated user id, or else the (possibly freshly created) guest id. -/
def resolveOwner (st : Store) (sess : SessionState) (auth : Option Nat) :
    (Option Nat × Option String) × SessionState × Store :=
  match auth with
  | some u => ((some u, none), sess, st)
  | none =>
      let r := get_or_create_guest_session st sess
      ((none, some r.1), r.2.1, r.2.2)

/-- The ownership filter used by both `get_object_or_404(..., user=user)` /
`(..., guest_session_id=guest_session_id)` in `chat` and the owner scoping of
`get_queryset`. -/
def ownedBy (user : Option Nat) (guest : Option String) (c : Conversation) : Bool :=
  match user with
  | some u => c.user == some u
  | none => c.guest_session_id == guest

/-- `get_object_or_404(Conversation, id=conversation_id, <owner filter>)`,
returning `none` where Django raises Http404. -/
def lookupConv (st : Store) (user : Option Nat) (guest : Option String) (cid : Nat) :
    Option Conversation :=
  st.conversations.find? fun c => c.id == cid && ownedBy user guest c

/-- `ConversationViewSet.get_queryset`: conversations filtered to the owner. -/
def conversationQueryset (st : Store) (user : Option Nat) (guest : Option String) :
    List Conversation :=
  st.conversations.filter (ownedBy user guest)

/-- Fetching a single conversation through the ViewSet (`self.get_object()`:
lookup by pk inside the owner-scoped queryset). -/
def retrieveConversation (st : Store) (user : Option Nat) (guest : Option String)
    (cid : Nat) : Option Conversation :=
  (conversationQueryset st user guest).find? fun c => c.id == cid

/-- `Conversation.objects.create(...)`: fresh id, stamped timestamps. -/
def createConversation (st : Store) (user : Option Nat) (guest : Option String)
    (title : String) : Conversation × Store :=
  let c : Conversation :=
    { id := st.uuidGen, user := user, guest_session_id := guest,
      title := title, created_at := st.clock, updated_at := st.clock }
  (c, { st with conversations := st.conversations ++ [c],
                uuidGen := st.uuidGen + 1, clock := st.clock + 1 })

/-- `Message.save` (models.py lines 94-98): insert the row, then refresh the
parent conversation's `updated_at` with `save(update_fields=[...])`. -/
def messageSave (st : Store) (m : Message) : Store :=
  { st with
    messages := st.messages ++ [m],
    conversations := st.conversations.map fun c =>
      if c.id == m.conversation then { c with updated_at := st.clock } else c,
    clock := st.clock + 1 }

/-- `Message.objects.create(...)`: build the row and run `Message.save`. -/
def createMessage (st : Store) (conv : Nat) (content : String) (role : String)
    (metadata : Option MsgMeta) : Message × Store :=
  let m : Message :=
    { id := st.uuidGen, conversation := conv, content := content,
      role := role, metadata := metadata, created_at := st.clock }
  (m, messageSave { st with uuidGen := st.uuidGen + 1 } m)

/-- `APIUsage.objects.create(...)` as issued by `chat` (endpoint "chat"). -/
def createUsage (st : Store) (user : Option Nat) (guest : Option String)
    (tokens : Nat) (status : Nat) : Store :=
  let u : APIUsage :=
    { id := st.uuidGen, user := user, guest_session_id := guest,
      endpoint := "chat", tokens_used := tokens, response_time_ms := st.clock,
      status_code := status, created_at := st.clock }
  { st with usage := st.usage ++ [u], uuidGen := st.uuidGen + 1, clock := st.clock + 1 }

/-- `conversation.messages.all()` / `.order_by('created_at')`: the rows of one
conversation in creation order (the listing shown by the `messages` action). -/
def conversationMessages (st : Store) (cid : Nat) : List Message :=
  st.messages.filter fun m => m.conversation == cid

/-- The `conversation_history` field of the payload built in
`_call_ai_service`: all of the conversation's messages in creation order as
`{content, role}` pairs, minus the just-created last one (`messages[:-1]`). -/
def historyPayload (st : Store) (cid : Nat) : List ChatMessage :=
  ((conversationMessages st cid).map fun m =>
    ({ content := m.content, role := m.role } : ChatMessage)).dropLast

/-! ## Chat orchestration (`ConversationViewSet.chat`) -/

/-- The validated chat request body (`ChatRequestSerializer` fields with their
defaults applied). -/
structure ChatRequest where
  message : String
  conversation_id : Option Nat
  temperature : Rat
  max_tokens : Int
deriving DecidableEq, Repr

/-- `ChatRequestSerializer` validation. The `message` field is a DRF
`CharField(max_length=2000)` with the default `trim_whitespace=True`:
`run_validation` rejects values that are blank after stripping, and
`to_internal_value` strips before the max-length validator runs, so the
2000-character bound applies to the stripped value. `validate_message` then
re-checks the (already stripped) value is non-empty. `temperature` must lie
in [0, 2] and `max_tokens` in [1, 4000]. -/
def chatRequestIsValid (r : ChatRequest) : Bool :=
  decide ((pyStrip r.message).length ≤ 2000) &&
  !(pyStrip r.message == "") &&
  decide (0 ≤ r.temperature) && decide (r.temperature ≤ 2) &&
  decide (1 ≤ r.max_tokens) && decide (r.max_tokens ≤ 4000)

/-- Outcome of the upstream AI-service HTTP call made by `_call_ai_service`:
a parsed 200 body, or the raised exception's text (timeout, transport error,
or the non-200 branch's message). -/
inductive AIResult where
  | ok (content : String) (tokens_used : Nat) (model : String)
  | err (e : String)
deriving DecidableEq, Repr

/-- The HTTP response of the chat endpoint, by status. -/
inductive ChatOutcome where
  | badRequest
  | notFound
  | ok (conversation_id : Nat) (tokens_used : Nat)
  | serverError (error : String)
deriving DecidableEq, Repr

/-- The tail of `chat` once the conversation is resolved: create the user
message, then on AI success create the assistant message and a 200 usage row,
on AI failure only a 500 usage row with zero tokens. -/
def chatResolved (st : Store) (user : Option Nat) (guest : Option String)
    (msg : String) (temperature : Rat) (max_tokens : Int) (cid : Nat)
    (ai : AIResult) : ChatOutcome × Store :=
  let st1 := (createMessage st cid msg "user" none).2
  match ai with
  | AIResult.ok content tokens model =>
      let st2 := (createMessage st1 cid content "assistant"
        (some { tokens_used := tokens, model := model,
                temperature := temperature, max_tokens := max_tokens })).2
      let st3 := createUsage st2 user guest tokens 200
      (ChatOutcome.ok cid tokens, st3)
  | AIResult.err e =>
      let st2 := createUsage st1 user guest 0 500
      (ChatOutcome.serverError ("AI service error: " ++ e), st2)

/-- `ConversationViewSet.chat`: validate, resolve owner, fetch or create the
conversation, then run the resolved tail. The AI-call outcome is an oracle
argument. -/
def chat (st : Store) (sess : SessionState) (auth : Option Nat)
    (req : ChatRequest) (ai : AIResult) : ChatOutcome × Store × SessionState :=
  if chatRequestIsValid req then
    let msg := pyStrip req.message
    let ro := resolveOwner st sess auth
    let user := ro.1.1
    let guest := ro.1.2
    let sess1 := ro.2.1
    let st1 := ro.2.2
    match req.conversation_id with
    | some cid =>
        match lookupConv st1 user guest cid with
        | some conv =>
            let r := chatResolved st1 user guest msg
              req.temperature req.max_tokens conv.id ai
            (r.1, r.2, sess1)
        | none => (ChatOutcome.notFound, st1, sess1)
    | none =>
        let title := if msg.length > 50 then msg.take 50 ++ "..." else msg
        let cr := createConversation st1 user guest title
        let r := chatResolved cr.2 user guest msg
          req.temperature req.max_tokens cr.1.id ai
        (r.1, r.2, sess1)
  else (ChatOutcome.badRequest, st, sess)

/-- `ConversationViewSet.perform_create`: explicit conversation creation for
an authenticated or guest caller. -/
def perform_create (st : Store) (sess : SessionState) (auth : Option Nat)
    (title : String) : Conversation × SessionState × Store :=
  match auth with
  | some u =>
      let cr := createConversation st (some u) none title
      (cr.1, sess, cr.2)
  | none =>
      let g := get_or_create_guest_session st sess
      let cr := createConversation g.2.2 none (some g.1) title
      (cr.1, g.2.1, cr.2)

/-! ## Concrete fixtures used by witnesses -/

/-- An empty store. -/
def emptyStore : Store :=
  { conversations := [], messages := [], usage := [], uuidGen := 0, clock := 0 }

/-- A fresh session (no key, no guest id). -/
def freshSession : SessionState :=
  { session_key := none, guest_session_id := none }

/-- A store holding one conversation (id 0) owned by authenticated user 1,
with four messages already exchanged in it. -/
def sampleStore : Store :=
  { conversations :=
      [{ id := 0, user := some 1, guest_session_id := none,
         title := "t", created_at := 0, updated_at := 3 }],
    messages :=
      [{ id := 1, conversation := 0, content := "a", role := "user", metadata := none, created_at := 0 },
       { id := 2, conversation := 0, content := "b", role := "assistant", metadata := none, created_at := 1 },
       { id := 3, conversation := 0, content := "c", role := "user", metadata := none, created_at := 2 },
       { id := 4, conversation := 0, content := "d", role := "user", metadata := none, created_at := 3 }],
    usage := [], uuidGen := 5, clock := 4 }

/-- A well-formed chat request addressed to no particular conversation. -/
def sampleRequest : ChatRequest :=
  { message := "hi there", conversation_id := none, temperature := 1, max_tokens := 100 }

/-- A well-formed chat request addressed to conversation 0. -/
def sampleRequestConv0 : ChatRequest :=
  { message := "hi there", conversation_id := some 0, temperature := 1, max_tokens := 100 }

/-- A request whose message is whitespace only (empty after stripping). -/
def blankRequest : ChatRequest :=
  { message := "   ", conversation_id := none, temperature := 1, max_tokens := 100 }

/-- The single conversation row held by `sampleStore`. -/
def sampleConv : Conversation :=
  { id := 0, user := some 1, guest_session_id := none,
    title := "t", created_at := 0, updated_at := 3 }

/-- A request whose raw message has 2001 characters (1996 letters plus 5
trailing blanks) but strips to 1996 characters. -/
def padRequest : ChatRequest :=
  { message := String.mk (List.replicate 1996 'a' ++ List.replicate 5 ' '),
    conversation_id := none, temperature := 1, max_tokens := 100 }


/-! ## Claim C2: bounded context window -/

/-- C2: the context window forwarded to the inference model never holds more
than the 10 most recent prior messages of the conversation (creation order,
excluding the just-appended one, which `historyPayload` drops), and a
3-message prior history is forwarded whole. -/
theorem context_window_bounded (st : Store) (cid : Nat) :
    (contextWindow (historyPayload st cid)).length ≤ 10 ∧
    List.IsSuffix (contextWindow (historyPayload st cid)) (historyPayload st cid) ∧
    ((historyPayload st cid).length = 3 →
      contextWindow (historyPayload st cid) = historyPayload st cid) := by
  refine ⟨?_, List.drop_suffix _ _, ?_⟩
  · rw [contextWindow, List.length_drop]
    omega
  · intro h
    simp [contextWindow, h]

/-- Witness for C2 on a conversation with exactly 3 prior messages. -/
theorem context_window_bounded_witness :
    (historyPayload sampleStore 0).length = 3 ∧
    contextWindow (historyPayload sampleStore 0) = historyPayload sampleStore 0 :=
  ⟨by decide, (context_window_bounded sampleStore 0).2.2 (by decide)⟩

/-! ## Claim C6: total error handling in the inference responder -/

/-- C6: when a backend model is configured and the underlying model call
raises, `generate_response` returns a normal result: an apology embedding the
error text, the constant 20 tokens, the configured model name (or
"error-model" when none), and the elapsed wall-clock time. Totality on all
three paths is expressed by the return type `AIResponse`, which has no error
case. -/
theorem generate_response_error_path (svc : AIService) (message : String)
    (conversation_history : List ChatMessage) (callModel : String → ModelCall)
    (elapsed : Nat) (e : String)
    (hc : svc.model_configured = true)
    (he : callModel (prepare_context conversation_history message) = ModelCall.exn e) :
    generate_response svc message conversation_history callModel elapsed =
      { content := "I apologize, but I encountered an error: " ++ e ++ ". Please try again later.",
        tokens_used := 20,
        model := if svc.model_name == "" then "error-model" else svc.model_name,
        response_time_ms := elapsed } := by
  simp [generate_response, hc, he, generate_error_response]

/-- Witness for C6 on a concrete failing model call. -/
theorem generate_response_error_path_witness :
    generate_response (AIService.mk "gemini-1.5-flash" true) "Hi" []
        (fun _ => ModelCall.exn "boom") 7 =
      { content := "I apologize, but I encountered an error: boom. Please try again later.",
        tokens_used := 20, model := "gemini-1.5-flash", response_time_ms := 7 } := by
  have h := generate_response_error_path (AIService.mk "gemini-1.5-flash" true) "Hi" []
    (fun _ => ModelCall.exn "boom") 7 "boom" rfl rfl
  simpa using h

/-! ## Claim C10: deterministic mock responses -/

/-- C10: with no backend model configured, `generate_response` returns the
mock response selected at index `len(message) % 4`, with model "mock-model"
and tokens equal to the word counts of response and message; for "Hello" the
index is 1 and the demo response is returned with 15 tokens. -/
theorem mock_response_selection :
    (∀ (svc : AIService) (message : String) (conversation_history : List ChatMessage)
       (callModel : String → ModelCall) (elapsed : Nat),
       svc.model_configured = false →
         generate_response svc message conversation_history callModel elapsed =
           generate_mock_response message elapsed) ∧
    (∀ (message : String) (elapsed : Nat),
       (generate_mock_response message elapsed).content =
         (mock_responses message).getD (message.length % 4) "" ∧
       (generate_mock_response message elapsed).model = "mock-model" ∧
       (generate_mock_response message elapsed).tokens_used =
         wordCount ((mock_responses message).getD (message.length % 4) "") +
           wordCount message) ∧
    ("Hello".length % 4 = 1 ∧
     (generate_mock_response "Hello" 0).content =
       "This is a demo response from the AI service. The system is working correctly!" ∧
     (generate_mock_response "Hello" 0).model = "mock-model" ∧
     (generate_mock_response "Hello" 0).tokens_used = 15) := by
  refine ⟨?_, ?_, ?_⟩
  · intro svc message conversation_history callModel elapsed h
    simp [generate_response, h]
  · intro message elapsed
    exact ⟨rfl, rfl, rfl⟩
  · exact ⟨by decide, by decide, by decide, by decide⟩

/-- Witness for C10: the unconfigured branch at a concrete service state. -/
theorem mock_response_selection_witness :
    (AIService.mk "" false).model_configured = false ∧
    generate_response (AIService.mk "" false) "Hello" []
        (fun _ => ModelCall.ok "x") 0 =
      generate_mock_response "Hello" 0 :=
  ⟨rfl, mock_response_selection.1 (AIService.mk "" false) "Hello" []
    (fun _ => ModelCall.ok "x") 0 rfl⟩

/-! ## Helper lemmas about the store operations -/

/-- `mkGuestToken` is injective: distinct counter values give distinct tokens. -/
theorem mkGuestToken_inj {a b : Nat} (h : mkGuestToken a = mkGuestToken b) : a = b := by
  have hl := congrArg String.length h
  simpa [mkGuestToken, String.length] using hl

/-- Resolving the guest session touches only the uuid supply: conversations,
messages and usage rows are untouched. -/
theorem guestSession_store (st : Store) (sess : SessionState) :
    ((get_or_create_guest_session st sess).2.2).conversations = st.conversations ∧
    ((get_or_create_guest_session st sess).2.2).messages = st.messages ∧
    ((get_or_create_guest_session st sess).2.2).usage = st.usage := by
  rcases hk : sess.session_key with _ | k <;>
    rcases hg : sess.guest_session_id with _ | g <;>
      simp [get_or_create_guest_session, hk, hg]

/-- Owner resolution leaves all three tables unchanged. -/
theorem resolveOwner_store (st : Store) (sess : SessionState) (auth : Option Nat) :
    ((resolveOwner st sess auth).2.2).conversations = st.conversations ∧
    ((resolveOwner st sess auth).2.2).messages = st.messages ∧
    ((resolveOwner st sess auth).2.2).usage = st.usage := by
  cases auth with
  | none => simpa [resolveOwner] using guestSession_store st sess
  | some u => simp [resolveOwner]

/-- The owner pair produced by resolution: authenticated id, or a guest id. -/
theorem resolveOwner_owner (st : Store) (sess : SessionState) (auth : Option Nat) :
    (auth = none → (resolveOwner st sess auth).1.1 = none ∧
      ∃ g, (resolveOwner st sess auth).1.2 = some g) ∧
    (∀ u, auth = some u → (resolveOwner st sess auth).1.1 = some u ∧
      (resolveOwner st sess auth).1.2 = none) := by
  cases auth <;> simp [resolveOwner]

/-- Saving a message only rewrites `updated_at` on conversations: every row of
the new table comes from an old row with every other field unchanged. -/
theorem messageSave_conversations_mem (st : Store) (m : Message) :
    ∀ c ∈ (messageSave st m).conversations, ∃ c0 ∈ st.conversations,
      c.id = c0.id ∧ c.user = c0.user ∧ c.guest_session_id = c0.guest_session_id ∧
      c.title = c0.title ∧ c.created_at = c0.created_at := by
  intro c hc
  simp only [messageSave, List.mem_map] at hc
  obtain ⟨c0, hc0, hfc⟩ := hc
  refine ⟨c0, hc0, ?_⟩
  split at hfc <;> subst hfc <;> simp

/-- The user-message row created by the resolved chat tail. -/
def userRow (st : Store) (cid : Nat) (msg : String) : Message :=
  { id := st.uuidGen, conversation := cid, content := msg, role := "user",
    metadata := none, created_at := st.clock }

/-- The assistant-message row created on AI success. -/
def assistantRow (st : Store) (cid : Nat) (content : String) (tokens : Nat)
    (model : String) (temperature : Rat) (max_tokens : Int) : Message :=
  { id := st.uuidGen + 1, conversation := cid, content := content, role := "assistant",
    metadata := some { tokens_used := tokens, model := model,
                       temperature := temperature, max_tokens := max_tokens },
    created_at := st.clock + 1 }

/-- Messages written by the resolved chat tail: the user row alone on AI
failure, the user row then the assistant row on success. -/
theorem chatResolved_messages (st : Store) (user : Option Nat) (guest : Option String)
    (msg : String) (temp : Rat) (mt : Int) (cid : Nat) (ai : AIResult) :
    (chatResolved st user guest msg temp mt cid ai).2.messages =
      st.messages ++
        (match ai with
         | AIResult.ok c t mo => [userRow st cid msg, assistantRow st cid c t mo temp mt]
         | AIResult.err _ => [userRow st cid msg]) := by
  cases ai <;>
    simp [chatResolved, createMessage, messageSave, createUsage, userRow, assistantRow]

/-- Usage rows written by the resolved chat tail: exactly one, status 200 with
the AI token count on success, status 500 with zero tokens on failure. -/
theorem chatResolved_usage (st : Store) (user : Option Nat) (guest : Option String)
    (msg : String) (temp : Rat) (mt : Int) (cid : Nat) (ai : AIResult) :
    (chatResolved st user guest msg temp mt cid ai).2.usage =
      st.usage ++
        (match ai with
         | AIResult.ok _ t _ =>
             [{ id := st.uuidGen + 2, user := user, guest_session_id := guest,
                endpoint := "chat", tokens_used := t, response_time_ms := st.clock + 2,
                status_code := 200, created_at := st.clock + 2 }]
         | AIResult.err _ =>
             [{ id := st.uuidGen + 1, user := user, guest_session_id := guest,
                endpoint := "chat", tokens_used := 0, response_time_ms := st.clock + 1,
                status_code := 500, created_at := st.clock + 1 }]) := by
  cases ai <;>
    simp [chatResolved, createMessage, messageSave, createUsage]

/-- Outcome of the resolved chat tail. -/
theorem chatResolved_outcome (st : Store) (user : Option Nat) (guest : Option String)
    (msg : String) (temp : Rat) (mt : Int) (cid : Nat) (ai : AIResult) :
    (chatResolved st user guest msg temp mt cid ai).1 =
      match ai with
      | AIResult.ok _ t _ => ChatOutcome.ok cid t
      | AIResult.err e => ChatOutcome.serverError ("AI service error: " ++ e) := by
  cases ai <;> rfl

/-- The resolved chat tail only rewrites `updated_at` on conversation rows. -/
theorem chatResolved_conversations_mem (st : Store) (user : Option Nat)
    (guest : Option String) (msg : String) (temp : Rat) (mt : Int) (cid : Nat)
    (ai : AIResult) :
    ∀ c ∈ (chatResolved st user guest msg temp mt cid ai).2.conversations,
      ∃ c0 ∈ st.conversations, c.id = c0.id ∧ c.user = c0.user ∧
        c.guest_session_id = c0.guest_session_id ∧ c.title = c0.title ∧
        c.created_at = c0.created_at := by
  intro c hc
  cases ai with
  | ok content tokens model =>
      simp only [chatResolved, createMessage, createUsage] at hc
      obtain ⟨c1, hc1, e1, e2, e3, e4, e5⟩ := messageSave_conversations_mem _ _ c hc
      simp only [] at hc1
      obtain ⟨c0, hc0, f1, f2, f3, f4, f5⟩ := messageSave_conversations_mem _ _ c1 hc1
      exact ⟨c0, hc0, e1.trans f1, e2.trans f2, e3.trans f3, e4.trans f4, e5.trans f5⟩
  | err e =>
      simp only [chatResolved, createMessage, createUsage] at hc
      obtain ⟨c0, hc0, f1, f2, f3, f4, f5⟩ := messageSave_conversations_mem _ _ c hc
      exact ⟨c0, hc0, f1, f2, f3, f4, f5⟩

/-! ## Claim C1: one user message, one usage row, assistant message iff success -/

/-- C1: every chat invocation that passes validation and conversation
resolution writes exactly one user message and exactly one usage row; on AI
success additionally exactly one assistant message and a status-200 usage row
carrying the AI token count; on AI failure no assistant message and a
status-500 usage row with zero tokens. -/
theorem chat_message_pair_and_usage (st : Store) (sess : SessionState)
    (auth : Option Nat) (req : ChatRequest) (ai : AIResult)
    (h : (chat st sess auth req ai).1 ≠ ChatOutcome.badRequest)
    (h2 : (chat st sess auth req ai).1 ≠ ChatOutcome.notFound) :
    ∃ newMsgs : List Message, ∃ newU : APIUsage,
      (chat st sess auth req ai).2.1.messages = st.messages ++ newMsgs ∧
      (chat st sess auth req ai).2.1.usage = st.usage ++ [newU] ∧
      (newMsgs.filter fun m => m.role == "user").length = 1 ∧
      (∀ c t mo, ai = AIResult.ok c t mo →
        (newMsgs.filter fun m => m.role == "assistant").length = 1 ∧
        newU.status_code = 200 ∧ newU.tokens_used = t) ∧
      (∀ e, ai = AIResult.err e →
        (newMsgs.filter fun m => m.role == "assistant").length = 0 ∧
        newU.status_code = 500 ∧ newU.tokens_used = 0) := by
  obtain ⟨hcv, hms, hus⟩ := resolveOwner_store st sess auth
  by_cases hv : chatRequestIsValid req = true
  · rcases hcid : req.conversation_id with _ | cid
    · simp only [chat, hv, if_true, hcid] at h h2 ⊢
      rw [chatResolved_messages, chatResolved_usage]
      simp only [createConversation, hms, hus]
      rcases ai with ⟨cc, tt, mm⟩ | ee
      · refine ⟨_, _, rfl, rfl, ?_, ?_, ?_⟩
        · simp [userRow, assistantRow]
        · intro c t mo heq
          cases heq
          exact ⟨by simp [userRow, assistantRow], rfl, rfl⟩
        · intro e heq
          simp at heq
      · refine ⟨_, _, rfl, rfl, ?_, ?_, ?_⟩
        · simp [userRow]
        · intro c t mo heq
          simp at heq
        · intro e heq
          exact ⟨by simp [userRow], rfl, rfl⟩
    · rcases hL : lookupConv (resolveOwner st sess auth).2.2
          (resolveOwner st sess auth).1.1 (resolveOwner st sess auth).1.2 cid
        with _ | conv
      · exfalso
        apply h2
        simp [chat, hv, hcid, hL]
      · simp only [chat, hv, if_true, hcid, hL] at h h2 ⊢
        rw [chatResolved_messages, chatResolved_usage]
        simp only [hms, hus]
        rcases ai with ⟨cc, tt, mm⟩ | ee
        · refine ⟨_, _, rfl, rfl, ?_, ?_, ?_⟩
          · simp [userRow, assistantRow]
          · intro c t mo heq
            cases heq
            exact ⟨by simp [userRow, assistantRow], rfl, rfl⟩
          · intro e heq
            simp at heq
        · refine ⟨_, _, rfl, rfl, ?_, ?_, ?_⟩
          · simp [userRow]
          · intro c t mo heq
            simp at heq
          · intro e heq
            exact ⟨by simp [userRow], rfl, rfl⟩
  · exfalso
    apply h
    simp [chat, hv]

/-- Witness for C1 on a concrete successful invocation. -/
theorem chat_message_pair_and_usage_witness :
    ((chat emptyStore freshSession (some 1) sampleRequest (AIResult.ok "yo" 5 "m")).1 ≠
        ChatOutcome.badRequest ∧
     (chat emptyStore freshSession (some 1) sampleRequest (AIResult.ok "yo" 5 "m")).1 ≠
        ChatOutcome.notFound) ∧
    (∃ newMsgs : List Message, ∃ newU : APIUsage,
      (chat emptyStore freshSession (some 1) sampleRequest
          (AIResult.ok "yo" 5 "m")).2.1.messages = emptyStore.messages ++ newMsgs ∧
      (chat emptyStore freshSession (some 1) sampleRequest
          (AIResult.ok "yo" 5 "m")).2.1.usage = emptyStore.usage ++ [newU] ∧
      (newMsgs.filter fun m => m.role == "user").length = 1 ∧
      (∀ c t mo, AIResult.ok "yo" 5 "m" = AIResult.ok c t mo →
        (newMsgs.filter fun m => m.role == "assistant").length = 1 ∧
        newU.status_code = 200 ∧ newU.tokens_used = t) ∧
      (∀ e, AIResult.ok "yo" 5 "m" = AIResult.err e →
        (newMsgs.filter fun m => m.role == "assistant").length = 0 ∧
        newU.status_code = 500 ∧ newU.tokens_used = 0)) :=
  ⟨⟨by decide, by decide⟩,
   chat_message_pair_and_usage emptyStore freshSession (some 1) sampleRequest
     (AIResult.ok "yo" 5 "m") (by decide) (by decide)⟩

/-! ## Claim C4: gateway failure handling -/

/-- On AI failure the resolved tail returns the 500 body with the upstream
error text, persists only the user row, and that row is visible in the
conversation's message listing. -/
theorem chatResolved_err_user_message (st : Store) (user : Option Nat)
    (guest : Option String) (msg : String) (temp : Rat) (mt : Int) (cid : Nat)
    (e : String) :
    (chatResolved st user guest msg temp mt cid (AIResult.err e)).1 =
      ChatOutcome.serverError ("AI service error: " ++ e) ∧
    (chatResolved st user guest msg temp mt cid (AIResult.err e)).2.messages =
      st.messages ++ [userRow st cid msg] ∧
    userRow st cid msg ∈ conversationMessages
      (chatResolved st user guest msg temp mt cid (AIResult.err e)).2 cid := by
  refine ⟨rfl, ?_, ?_⟩
  · simpa using chatResolved_messages st user guest msg temp mt cid (AIResult.err e)
  · simp only [conversationMessages]
    have hm := chatResolved_messages st user guest msg temp mt cid (AIResult.err e)
    simp only at hm
    rw [hm]
    simp [userRow, List.mem_filter]

/-- C4: when the AI-gateway call fails, a validated and resolved chat
invocation returns the 500 outcome whose error body is "AI service error: "
followed by the upstream error text; no assistant message is written, and the
persisted user message (the stripped request text) remains visible in the
subsequent listing of its conversation. -/
theorem gateway_failure_preserves_user_message (st : Store) (sess : SessionState)
    (auth : Option Nat) (req : ChatRequest) (e : String)
    (h : (chat st sess auth req (AIResult.err e)).1 ≠ ChatOutcome.badRequest)
    (h2 : (chat st sess auth req (AIResult.err e)).1 ≠ ChatOutcome.notFound) :
    (chat st sess auth req (AIResult.err e)).1 =
      ChatOutcome.serverError ("AI service error: " ++ e) ∧
    ∃ um : Message,
      (chat st sess auth req (AIResult.err e)).2.1.messages = st.messages ++ [um] ∧
      um.role = "user" ∧ um.content = pyStrip req.message ∧
      um ∈ conversationMessages (chat st sess auth req (AIResult.err e)).2.1
        um.conversation := by
  obtain ⟨hcv, hms, hus⟩ := resolveOwner_store st sess auth
  by_cases hv : chatRequestIsValid req = true
  · rcases hcid : req.conversation_id with _ | cid
    · simp only [chat, hv, if_true, hcid] at h h2 ⊢
      obtain ⟨ho, hmsgs, hmem⟩ := chatResolved_err_user_message
        (createConversation (resolveOwner st sess auth).2.2
          (resolveOwner st sess auth).1.1 (resolveOwner st sess auth).1.2
          (if (pyStrip req.message).length > 50
            then (pyStrip req.message).take 50 ++ "..." else pyStrip req.message)).2
        (resolveOwner st sess auth).1.1 (resolveOwner st sess auth).1.2
        (pyStrip req.message) req.temperature req.max_tokens
        (createConversation (resolveOwner st sess auth).2.2
          (resolveOwner st sess auth).1.1 (resolveOwner st sess auth).1.2
          (if (pyStrip req.message).length > 50
            then (pyStrip req.message).take 50 ++ "..." else pyStrip req.message)).1.id
        e
      refine ⟨ho, ?_⟩
      rw [hmsgs] at *
      refine ⟨_, ?_, rfl, rfl, hmem⟩
      rw [hmsgs]
      simp only [createConversation, hms]
    · rcases hL : lookupConv (resolveOwner st sess auth).2.2
          (resolveOwner st sess auth).1.1 (resolveOwner st sess auth).1.2 cid
        with _ | conv
      · exfalso
        apply h2
        simp [chat, hv, hcid, hL]
      · simp only [chat, hv, if_true, hcid, hL] at h h2 ⊢
        obtain ⟨ho, hmsgs, hmem⟩ := chatResolved_err_user_message
          (resolveOwner st sess auth).2.2
          (resolveOwner st sess auth).1.1 (resolveOwner st sess auth).1.2
          (pyStrip req.message) req.temperature req.max_tokens conv.id e
        refine ⟨ho, ?_⟩
        refine ⟨_, ?_, rfl, rfl, hmem⟩
        rw [hmsgs, hms]
  · exfalso
    apply h
    simp [chat, hv]

/-- Witness for C4 on a concrete timed-out invocation against an existing
conversation. -/
theorem gateway_failure_preserves_user_message_witness :
    ((chat sampleStore freshSession (some 1) sampleRequestConv0
        (AIResult.err "timeout")).1 ≠ ChatOutcome.badRequest ∧
     (chat sampleStore freshSession (some 1) sampleRequestConv0
        (AIResult.err "timeout")).1 ≠ ChatOutcome.notFound) ∧
    ((chat sampleStore freshSession (some 1) sampleRequestConv0
        (AIResult.err "timeout")).1 =
      ChatOutcome.serverError ("AI service error: " ++ "timeout") ∧
     ∃ um : Message,
       (chat sampleStore freshSession (some 1) sampleRequestConv0
          (AIResult.err "timeout")).2.1.messages = sampleStore.messages ++ [um] ∧
       um.role = "user" ∧ um.content = pyStrip sampleRequestConv0.message ∧
       um ∈ conversationMessages
         (chat sampleStore freshSession (some 1) sampleRequestConv0
           (AIResult.err "timeout")).2.1 um.conversation) :=
  ⟨⟨by decide, by decide⟩,
   gateway_failure_preserves_user_message sampleStore freshSession (some 1)
     sampleRequestConv0 "timeout" (by decide) (by decide)⟩

/-! ## Claim C5: validation failures have no side effects -/

/-- Length of a string built from an explicit character list. -/
theorem string_length_mk (l : List Char) : (String.mk l).length = l.length := rfl

/-- Stripping a block of letters padded by trailing blanks yields the letters. -/
theorem stripPad (n m : Nat) (hn : n ≠ 0) :
    pyStrip (String.mk (List.replicate n 'a' ++ List.replicate m ' ')) =
      String.mk (List.replicate n 'a') := by
  have ha : 'a'.isWhitespace = false := by decide
  have hs : ' '.isWhitespace = true := by decide
  show String.mk ((((List.replicate n 'a' ++ List.replicate m ' ').dropWhile
      Char.isWhitespace).reverse.dropWhile Char.isWhitespace).reverse) = _
  simp [List.dropWhile_append, List.dropWhile_replicate, ha, hs, hn]

/-- The padded request's raw message has 2001 characters. -/
theorem padLen : padRequest.message.length = 2001 := by
  show (String.mk (List.replicate 1996 'a' ++ List.replicate 5 ' ')).length = 2001
  rw [string_length_mk, List.length_append, List.length_replicate, List.length_replicate]

/-- The padded request passes serializer validation: the stripped message has
1996 characters. -/
theorem padValid : chatRequestIsValid padRequest = true := by
  rw [chatRequestIsValid]
  simp only [Bool.and_eq_true, decide_eq_true_eq, Bool.not_eq_true',
    beq_eq_false_iff_ne, ne_eq]
  have hps : pyStrip padRequest.message = String.mk (List.replicate 1996 'a') :=
    stripPad 1996 5 (by decide)
  refine ⟨⟨⟨⟨⟨?_, ?_⟩, ?_⟩, ?_⟩, ?_⟩, ?_⟩
  · rw [hps, string_length_mk, List.length_replicate]
    omega
  · rw [hps]
    intro hEq
    have h := congrArg String.length hEq
    rw [string_length_mk, List.length_replicate] at h
    exact absurd h (by decide)
  · norm_num [padRequest]
  · norm_num [padRequest]
  · norm_num [padRequest]
  · norm_num [padRequest]

/-- C5 counterexample to the claim as stated: a message of raw length 2001
(1996 letters padded with 5 trailing blanks) is longer than 2000 characters,
yet the endpoint does not reject it — the DRF CharField strips whitespace
before enforcing max_length — and the turn is processed, writing messages. -/
theorem overlong_raw_message_processed :
    2000 < padRequest.message.length ∧
    (chat emptyStore freshSession (some 1) padRequest (AIResult.ok "x" 1 "m")).1 ≠
      ChatOutcome.badRequest ∧
    (chat emptyStore freshSession (some 1) padRequest (AIResult.ok "x" 1 "m")).2.1.messages ≠
      emptyStore.messages := by
  have hcid : padRequest.conversation_id = none := rfl
  refine ⟨by rw [padLen]; omega, ?_, ?_⟩
  · simp only [chat, padValid, if_true, hcid]
    rw [chatResolved_outcome]
    simp
  · simp only [chat, padValid, if_true, hcid]
    rw [chatResolved_messages]
    simp [userRow, emptyStore]

/-- C5 (amended: the 2000-character bound applies to the message after
whitespace stripping, as DRF trims before running the max-length validator):
a request that is blank after stripping, longer than 2000 characters after
stripping, or out of range in temperature or max_tokens is rejected with the
400 outcome, and neither the store (conversations, messages, usage) nor the
caller's session is touched. -/
theorem invalid_request_rejected (st : Store) (sess : SessionState)
    (auth : Option Nat) (req : ChatRequest) (ai : AIResult)
    (h : pyStrip req.message = "" ∨ 2000 < (pyStrip req.message).length ∨
         req.temperature < 0 ∨ 2 < req.temperature ∨
         req.max_tokens < 1 ∨ 4000 < req.max_tokens) :
    chat st sess auth req ai = (ChatOutcome.badRequest, st, sess) := by
  have hv : chatRequestIsValid req = false := by
    by_contra hvt
    rw [Bool.not_eq_false] at hvt
    simp only [chatRequestIsValid, Bool.and_eq_true, decide_eq_true_eq,
      Bool.not_eq_true', beq_eq_false_iff_ne, ne_eq] at hvt
    obtain ⟨⟨⟨⟨⟨h1, h2⟩, h3⟩, h4⟩, h5⟩, h6⟩ := hvt
    rcases h with h | h | h | h | h | h
    · exact h2 h
    · omega
    · linarith
    · linarith
    · omega
    · omega
  simp [chat, hv]

/-- Witness for C5 on a whitespace-only message. -/
theorem invalid_request_rejected_witness :
    (pyStrip blankRequest.message = "" ∨ 2000 < (pyStrip blankRequest.message).length ∨
     blankRequest.temperature < 0 ∨ 2 < blankRequest.temperature ∨
     blankRequest.max_tokens < 1 ∨ 4000 < blankRequest.max_tokens) ∧
    chat emptyStore freshSession none blankRequest (AIResult.ok "x" 1 "m") =
      (ChatOutcome.badRequest, emptyStore, freshSession) :=
  ⟨Or.inl (by decide),
   invalid_request_rejected emptyStore freshSession none blankRequest
     (AIResult.ok "x" 1 "m") (Or.inl (by decide))⟩

/-! ## Claim C3: cross-owner conversations are invisible -/

/-- C3: if the addressed conversation id does not belong to the resolved
requesting owner, the chat endpoint answers not-found and writes nothing
(conversations, messages and usage rows all unchanged), and fetching the
conversation through the owner-scoped queryset (used by retrieve and the
message-listing action) also fails. -/
theorem cross_owner_access_not_found (st : Store) (sess : SessionState)
    (auth : Option Nat) (req : ChatRequest) (ai : AIResult) (cid : Nat)
    (hv : chatRequestIsValid req = true)
    (hcid : req.conversation_id = some cid)
    (hown : ∀ c ∈ st.conversations, c.id = cid →
      ownedBy (resolveOwner st sess auth).1.1 (resolveOwner st sess auth).1.2 c = false) :
    (chat st sess auth req ai).1 = ChatOutcome.notFound ∧
    (chat st sess auth req ai).2.1.messages = st.messages ∧
    (chat st sess auth req ai).2.1.conversations = st.conversations ∧
    (chat st sess auth req ai).2.1.usage = st.usage ∧
    retrieveConversation st (resolveOwner st sess auth).1.1
      (resolveOwner st sess auth).1.2 cid = none := by
  obtain ⟨hcv, hms, hus⟩ := resolveOwner_store st sess auth
  have hL : lookupConv (resolveOwner st sess auth).2.2
      (resolveOwner st sess auth).1.1 (resolveOwner st sess auth).1.2 cid = none := by
    rw [lookupConv, List.find?_eq_none]
    intro c hc hp
    rw [hcv] at hc
    rw [Bool.and_eq_true, beq_iff_eq] at hp
    obtain ⟨hp1, hp2⟩ := hp
    rw [hown c hc hp1] at hp2
    exact absurd hp2 (by decide)
  refine ⟨?_, ?_, ?_, ?_, ?_⟩
  · simp [chat, hv, hcid, hL]
  · simp [chat, hv, hcid, hL, hms]
  · simp [chat, hv, hcid, hL, hcv]
  · simp [chat, hv, hcid, hL, hus]
  · rw [retrieveConversation, List.find?_eq_none]
    intro c hc hp
    rw [conversationQueryset, List.mem_filter] at hc
    rw [beq_iff_eq] at hp
    exact absurd hc.2 (by rw [hown c hc.1 hp]; decide)

/-- Witness for C3: user 2 addressing user 1's conversation 0. -/
theorem cross_owner_access_not_found_witness :
    (chatRequestIsValid sampleRequestConv0 = true ∧
     sampleRequestConv0.conversation_id = some 0 ∧
     (∀ c ∈ sampleStore.conversations, c.id = 0 →
       ownedBy (resolveOwner sampleStore freshSession (some 2)).1.1
         (resolveOwner sampleStore freshSession (some 2)).1.2 c = false)) ∧
    ((chat sampleStore freshSession (some 2) sampleRequestConv0
        (AIResult.ok "x" 1 "m")).1 = ChatOutcome.notFound ∧
     (chat sampleStore freshSession (some 2) sampleRequestConv0
        (AIResult.ok "x" 1 "m")).2.1.messages = sampleStore.messages ∧
     (chat sampleStore freshSession (some 2) sampleRequestConv0
        (AIResult.ok "x" 1 "m")).2.1.conversations = sampleStore.conversations ∧
     (chat sampleStore freshSession (some 2) sampleRequestConv0
        (AIResult.ok "x" 1 "m")).2.1.usage = sampleStore.usage ∧
     retrieveConversation sampleStore
       (resolveOwner sampleStore freshSession (some 2)).1.1
       (resolveOwner sampleStore freshSession (some 2)).1.2 0 = none) :=
  ⟨⟨by decide, rfl, by decide⟩,
   cross_owner_access_not_found sampleStore freshSession (some 2)
     sampleRequestConv0 (AIResult.ok "x" 1 "m") 0 (by decide) rfl (by decide)⟩

/-! ## Claim C7: every created conversation has exactly one owner -/

/-- C7: a conversation created through `perform_create` or through the chat
endpoint's create-on-first-message path carries exactly one owner: either an
authenticated user id (guest id absent) or a guest session id (user absent). -/
theorem conversation_exactly_one_owner :
    (∀ (st : Store) (sess : SessionState) (auth : Option Nat) (title : String),
      ((perform_create st sess auth title).1.user = none ∧
        ∃ g, (perform_create st sess auth title).1.guest_session_id = some g) ∨
      ((∃ u, (perform_create st sess auth title).1.user = some u) ∧
        (perform_create st sess auth title).1.guest_session_id = none)) ∧
    (∀ (st : Store) (sess : SessionState) (auth : Option Nat) (req : ChatRequest)
       (ai : AIResult), ∀ c ∈ (chat st sess auth req ai).2.1.conversations,
      (∀ c0 ∈ st.conversations, c0.id ≠ c.id) →
      ((c.user = none ∧ ∃ g, c.guest_session_id = some g) ∨
       ((∃ u, c.user = some u) ∧ c.guest_session_id = none))) := by
  constructor
  · intro st sess auth title
    cases auth with
    | none => left; simp [perform_create, createConversation]
    | some u => right; simp [perform_create, createConversation]
  · intro st sess auth req ai c hc hNew
    obtain ⟨hcv, hms, hus⟩ := resolveOwner_store st sess auth
    by_cases hv : chatRequestIsValid req = true
    · rcases hcid : req.conversation_id with _ | cid
      · simp only [chat, hv, if_true, hcid] at hc
        obtain ⟨c0, hc0, e1, e2, e3, _, _⟩ :=
          chatResolved_conversations_mem _ _ _ _ _ _ _ _ c hc
        simp only [createConversation] at hc0
        rw [hcv] at hc0
        rcases List.mem_append.mp hc0 with hold | hnew
        · exact absurd e1.symm (hNew c0 hold)
        · rw [List.mem_singleton] at hnew
          subst hnew
          simp only at e2 e3
          cases auth with
          | none =>
              left
              obtain ⟨hu, g, hg⟩ := (resolveOwner_owner st sess none).1 rfl
              exact ⟨e2.trans hu, g, e3.trans hg⟩
          | some u =>
              right
              obtain ⟨hu, hg⟩ := (resolveOwner_owner st sess (some u)).2 u rfl
              exact ⟨⟨u, e2.trans hu⟩, e3.trans hg⟩
      · rcases hL : lookupConv (resolveOwner st sess auth).2.2
            (resolveOwner st sess auth).1.1 (resolveOwner st sess auth).1.2 cid
          with _ | conv
        · simp only [chat, hv, if_true, hcid, hL] at hc
          rw [hcv] at hc
          exact absurd rfl (hNew c hc)
        · simp only [chat, hv, if_true, hcid, hL] at hc
          obtain ⟨c0, hc0, e1, _, _, _, _⟩ :=
            chatResolved_conversations_mem _ _ _ _ _ _ _ _ c hc
          rw [hcv] at hc0
          exact absurd e1.symm (hNew c0 hc0)
    · simp only [chat, hv] at hc
      simp at hc
      exact absurd rfl (hNew c hc)

/-- Witness for C7: the guest create-on-first-message path yields a
guest-owned conversation. -/
theorem conversation_exactly_one_owner_witness :
    (∀ c ∈ (chat emptyStore freshSession none sampleRequest
        (AIResult.ok "yo" 5 "m")).2.1.conversations,
      (∀ c0 ∈ emptyStore.conversations, c0.id ≠ c.id) →
      ((c.user = none ∧ ∃ g, c.guest_session_id = some g) ∨
       ((∃ u, c.user = some u) ∧ c.guest_session_id = none))) ∧
    (((perform_create emptyStore freshSession (some 1) "t").1.user = none ∧
      ∃ g, (perform_create emptyStore freshSession (some 1) "t").1.guest_session_id = some g) ∨
    ((∃ u, (perform_create emptyStore freshSession (some 1) "t").1.user = some u) ∧
      (perform_create emptyStore freshSession (some 1) "t").1.guest_session_id = none)) := by
  constructor
  · exact conversation_exactly_one_owner.2 emptyStore freshSession none sampleRequest
      (AIResult.ok "yo" 5 "m")
  · exact conversation_exactly_one_owner.1 emptyStore freshSession (some 1) "t"

/-! ## Claim C8: appending a message refreshes only `updated_at` -/

/-- C8: creating a message refreshes the parent conversation's `updated_at`
to the append time (the new message's `created_at`), leaves conversations of
other ids untouched, and modifies no field other than `updated_at` on any
conversation row. -/
theorem message_append_refreshes_only_updated_at (st : Store) (conv : Nat)
    (content : String) (role : String) (md : Option MsgMeta) :
    (∀ c0 ∈ st.conversations, c0.id = conv →
      { c0 with updated_at := (createMessage st conv content role md).1.created_at } ∈
        (createMessage st conv content role md).2.conversations) ∧
    (∀ c0 ∈ st.conversations, c0.id ≠ conv →
      c0 ∈ (createMessage st conv content role md).2.conversations) ∧
    (∀ c ∈ (createMessage st conv content role md).2.conversations,
      ∃ c0 ∈ st.conversations, c.id = c0.id ∧ c.user = c0.user ∧
        c.guest_session_id = c0.guest_session_id ∧ c.title = c0.title ∧
        c.created_at = c0.created_at) := by
  refine ⟨?_, ?_, ?_⟩
  · intro c0 hc0 hid
    simp only [createMessage, messageSave, List.mem_map]
    exact ⟨c0, hc0, by simp [hid]⟩
  · intro c0 hc0 hid
    simp only [createMessage, messageSave, List.mem_map]
    exact ⟨c0, hc0, by simp [hid]⟩
  · intro c hc
    simp only [createMessage] at hc
    exact messageSave_conversations_mem _ _ c hc

/-- Witness for C8: appending to conversation 0 of the sample store refreshes
its `updated_at`. -/
theorem message_append_refreshes_only_updated_at_witness :
    (sampleConv ∈ sampleStore.conversations ∧ sampleConv.id = 0) ∧
    { sampleConv with
        updated_at := (createMessage sampleStore 0 "x" "user" none).1.created_at } ∈
      (createMessage sampleStore 0 "x" "user" none).2.conversations :=
  ⟨⟨by decide, rfl⟩,
   (message_append_refreshes_only_updated_at sampleStore 0 "x" "user" none).1
     sampleConv (by decide) rfl⟩

/-! ## Claim C9: guest identity is stable per session and unique across sessions -/

/-- C9: resolving guest identity stores a token on first call, every later
call on the same session returns the identical token with no state change,
and two distinct sessions resolved against the shared store receive distinct
tokens. -/
theorem guest_session_stable_and_unique :
    (∀ (st : Store) (sess : SessionState), sess.guest_session_id = none →
      (get_or_create_guest_session st sess).2.1.guest_session_id =
        some (get_or_create_guest_session st sess).1) ∧
    (∀ (st : Store) (sess : SessionState),
      get_or_create_guest_session (get_or_create_guest_session st sess).2.2
          (get_or_create_guest_session st sess).2.1 =
        ((get_or_create_guest_session st sess).1,
         (get_or_create_guest_session st sess).2.1,
         (get_or_create_guest_session st sess).2.2)) ∧
    (∀ (st : Store) (s1 s2 : SessionState),
      s1.guest_session_id = none → s2.guest_session_id = none →
      (get_or_create_guest_session st s1).1 ≠
        (get_or_create_guest_session (get_or_create_guest_session st s1).2.2 s2).1) := by
  refine ⟨?_, ?_, ?_⟩
  · intro st sess hg
    rcases hk : sess.session_key with _ | k <;>
      simp [get_or_create_guest_session, hk, hg]
  · intro st sess
    rcases hk : sess.session_key with _ | k <;>
      rcases hg : sess.guest_session_id with _ | g <;>
        simp [get_or_create_guest_session, hk, hg]
  · intro st s1 s2 h1 h2
    rcases hk1 : s1.session_key with _ | k1 <;>
      rcases hk2 : s2.session_key with _ | k2 <;>
        simp [get_or_create_guest_session, hk1, hk2, h1, h2] <;>
          (intro hEq; have := mkGuestToken_inj hEq; omega)

/-- Witness for C9: two fresh sessions resolved in sequence receive distinct
tokens, and the first session's token is stored. -/
theorem guest_session_stable_and_unique_witness :
    (freshSession.guest_session_id = none ∧
      (get_or_create_guest_session emptyStore freshSession).2.1.guest_session_id =
        some (get_or_create_guest_session emptyStore freshSession).1) ∧
    (get_or_create_guest_session emptyStore freshSession).1 ≠
      (get_or_create_guest_session
        (get_or_create_guest_session emptyStore freshSession).2.2 freshSession).1 :=
  ⟨⟨rfl, guest_session_stable_and_unique.1 emptyStore freshSession rfl⟩,
   guest_session_stable_and_unique.2.2 emptyStore freshSession freshSession rfl rfl⟩
